import Mathlib

/-!
Formal model of the webdriver message layer (mozilla/webdriver-rust):
JSON command decoding (`src/command.rs`), shared wire primitives
(`src/common.rs`) and response encoding (`src/response.rs`).

JSON values are modelled by the inductive `Json` below; numbers are
integer-valued (the claims under study only involve integral JSON
numbers), with the `u64` / `i64` range checks of `serde_json`'s
`as_u64` / `as_i64` made explicit.
-/

set_option maxHeartbeats 1000000

namespace WebdriverRust

/-- Model of `serde_json::Value`. Objects are association lists in
insertion order; `serde_json`'s `Map::get` is modelled by `List.lookup`. -/
inductive Json where
  | null
  | bool (b : Bool)
  | num (n : Int)
  | str (s : String)
  | arr (elems : List Json)
  | obj (fields : List (String × Json))
deriving Repr, Inhabited

/-- `u64::MAX`, that is `2 ^ 64 - 1`. -/
def u64Max : Nat := 18446744073709551615
/-- `i64::MIN`, that is `-(2 ^ 63)`. -/
def i64Min : Int := -9223372036854775808
/-- `i64::MAX`, that is `2 ^ 63 - 1`. -/
def i64Max : Int := 9223372036854775807

/-- `Value::get` with a string index: `Some` only on objects. -/
def Json.get (j : Json) (k : String) : Option Json :=
  match j with
  | .obj fields => List.lookup k fields
  | _ => none

/-- `Value::as_object`. -/
def Json.asObject (j : Json) : Option (List (String × Json)) :=
  match j with
  | .obj fields => some fields
  | _ => none

/-- `Value::is_object`. -/
def Json.isObject (j : Json) : Bool :=
  match j with
  | .obj _ => true
  | _ => false

/-- `Value::as_str`. -/
def Json.asStr (j : Json) : Option String :=
  match j with
  | .str s => some s
  | _ => none

/-- `Value::as_array`. -/
def Json.asArray (j : Json) : Option (List Json) :=
  match j with
  | .arr elems => some elems
  | _ => none

/-- `Value::as_bool`. -/
def Json.asBool (j : Json) : Option Bool :=
  match j with
  | .bool b => some b
  | _ => none

/-- `Value::as_u64`: succeeds exactly on integral numbers in `0..=u64::MAX`. -/
def Json.asU64 (j : Json) : Option Nat :=
  match j with
  | .num n => if 0 ≤ n ∧ n ≤ (u64Max : Int) then some n.toNat else none
  | _ => none

/-- `Value::as_i64`: succeeds exactly on integral numbers in `i64::MIN..=i64::MAX`. -/
def Json.asI64 (j : Json) : Option Int :=
  match j with
  | .num n => if i64Min ≤ n ∧ n ≤ i64Max then some n else none
  | _ => none

/-- Modelled from the spec: the error-kind enumeration lives in `src/error.rs`,
which is not part of the sources under study; §7 of the spec fixes the kinds
observed by this layer (InvalidArgument, UnknownError, NoSuchFrame,
UnableToSetCookie). -/
inductive ErrorStatus where
  | invalidArgument
  | unknownError
  | noSuchFrame
  | unableToSetCookie
deriving Repr, DecidableEq

/-- Modelled from the spec: `WebDriverError` (from `src/error.rs`, not part of
the sources under study) carries an error kind, a human-readable message, and
an optional secondary diagnostic stack string kept separate from the message
(spec §7); `WebDriverError::new` leaves the stack empty,
`WebDriverError::new_with_stack` sets it. -/
structure WebDriverError where
  error : ErrorStatus
  message : String
  stack : Option String
deriving Repr

def WebDriverError.new (error : ErrorStatus) (message : String) : WebDriverError :=
  ⟨error, message, none⟩

def WebDriverError.newWithStack (error : ErrorStatus) (message : String)
    (stack : String) : WebDriverError :=
  ⟨error, message, some stack⟩

abbrev WebDriverResult (α : Type) := Except WebDriverError α

/-- The `try_opt!` macro from `src/macros.rs`: unwrap an `Option` or fail with
the given error kind and message. -/
def tryOpt {α : Type} (x : Option α) (error : ErrorStatus) (message : String) :
    WebDriverResult α :=
  match x with
  | some v => .ok v
  | none => .error (WebDriverError.new error message)

/-- `pat` occurs as a contiguous sublist of the second argument. -/
def charsContain (pat : List Char) : List Char → Bool
  | [] => pat.isEmpty
  | c :: cs => pat.isPrefixOf (c :: cs) || charsContain pat cs

/-- `msg` mentions `field` (the field name occurs in the message text). -/
def mentions (msg field : String) : Bool :=
  charsContain field.toList msg.toList

/-- `msg` mentions `field` up to letter case (used where the message
capitalizes the field name, e.g. "Cookie parameter not found"). -/
def mentionsInsensitive (msg field : String) : Bool :=
  charsContain (field.toList.map Char.toLower) (msg.toList.map Char.toLower)

/-! ## `src/common.rs` -/

/-- `ELEMENT_KEY` from `src/common.rs`. -/
def ELEMENT_KEY : String := "element-6066-11e4-a52e-4f735466cecf"

/-- `Date(pub u64)` from `src/common.rs`. -/
structure Date where
  timestamp : Nat
deriving Repr, DecidableEq

/-- `impl From<Date> for Value`. -/
def Date.toValue (d : Date) : Json :=
  Json.num d.timestamp

structure WebElement where
  id : String
deriving Repr, DecidableEq

/-- `WebElement::from_json` from `src/common.rs`. -/
def WebElement.from_json (data : Json) : WebDriverResult WebElement := do
  let object ← tryOpt data.asObject .invalidArgument
      "Could not convert webelement to object"
  let id_value ← tryOpt (List.lookup ELEMENT_KEY object) .invalidArgument
      "Could not find webelement key"
  let id ← tryOpt id_value.asStr .invalidArgument
      "Could not convert web element to string"
  return ⟨id⟩

/-- `impl From<&WebElement> for Value` from `src/common.rs`: the single-key
object keyed by `ELEMENT_KEY`. -/
def WebElement.toValue (elem : WebElement) : Json :=
  Json.obj [(ELEMENT_KEY, Json.str elem.id)]

inductive FrameId where
  | short (n : Nat)
  | element (e : WebElement)
  | frameNull
deriving Repr, DecidableEq

/-- `FrameId::from_json` from `src/common.rs`. -/
def FrameId.from_json (data : Json) : WebDriverResult FrameId :=
  match data with
  | .num m => do
      let x ← tryOpt (Json.asU64 (.num m)) .noSuchFrame "frame id out of range"
      if 65535 < x then
        .error (WebDriverError.new .noSuchFrame "frame id out of range")
      else
        .ok (FrameId.short x)
  | .null => .ok FrameId.frameNull
  | .obj fields => do
      let e ← WebElement.from_json (.obj fields)
      return FrameId.element e
  | _ => .error (WebDriverError.new .noSuchFrame "frame id has unexpected type")

/-- `impl From<FrameId> for Value` from `src/common.rs`: note that the element
variant is emitted as the bare id string, not as the keyed element object. -/
def FrameId.toValue (frame_id : FrameId) : Json :=
  match frame_id with
  | .short x => Json.num x
  | .element x => Json.str x.id
  | .frameNull => Json.null

inductive LocatorStrategy where
  | CSSSelector
  | LinkText
  | PartialLinkText
  | XPath
deriving Repr, DecidableEq

/-- `LocatorStrategy::from_json` from `src/common.rs`. -/
def LocatorStrategy.from_json (body : Json) : WebDriverResult LocatorStrategy := do
  let s ← tryOpt body.asStr .invalidArgument "Cound not convert strategy to string"
  match s with
  | "css selector" => .ok LocatorStrategy.CSSSelector
  | "link text" => .ok LocatorStrategy.LinkText
  | "partial link text" => .ok LocatorStrategy.PartialLinkText
  | "xpath" => .ok LocatorStrategy.XPath
  | x => .error (WebDriverError.new .invalidArgument
      ("Unknown locator strategy " ++ x))

/-- `impl From<LocatorStrategy> for Value` from `src/common.rs`. -/
def LocatorStrategy.toValue (strategy : LocatorStrategy) : Json :=
  match strategy with
  | .CSSSelector => Json.str "css selector"
  | .LinkText => Json.str "link text"
  | .PartialLinkText => Json.str "partial link text"
  | .XPath => Json.str "xpath"

/-! ## `src/command.rs`: parameter decoders -/

structure GetParameters where
  url : String
deriving Repr, DecidableEq

/-- `GetParameters::from_json`. -/
def GetParameters.from_json (body : Json) : WebDriverResult GetParameters := do
  let data ← tryOpt body.asObject .unknownError "Message body was not an object"
  let url_json ← tryOpt (List.lookup "url" data) .invalidArgument
      "Missing 'url' parameter"
  let url ← tryOpt url_json.asStr .invalidArgument "'url' not a string"
  return ⟨url⟩

structure TimeoutsParameters where
  script : Option Nat
  page_load : Option Nat
  implicit : Option Nat
deriving Repr, DecidableEq

/-- `TimeoutsParameters::from_json`. -/
def TimeoutsParameters.from_json (body : Json) : WebDriverResult TimeoutsParameters := do
  let data ← tryOpt body.asObject .unknownError "Message body was not an object"
  let script ← match List.lookup "script" data with
    | some json => do
        let n ← tryOpt json.asU64 .invalidArgument
            "Script timeout duration was not a signed integer"
        pure (some n)
    | none => pure none
  let page_load ← match List.lookup "pageLoad" data with
    | some json => do
        let n ← tryOpt json.asU64 .invalidArgument
            "Page load timeout duration was not a signed integer"
        pure (some n)
    | none => pure none
  let implicit ← match List.lookup "implicit" data with
    | some json => do
        let n ← tryOpt json.asU64 .invalidArgument
            "Implicit timeout duration was not a signed integer"
        pure (some n)
    | none => pure none
  return ⟨script, page_load, implicit⟩

structure WindowRectParameters where
  x : Option Int
  y : Option Int
  width : Option Nat
  height : Option Nat
deriving Repr, DecidableEq

/-- `WindowRectParameters::from_json`: each field, when present, must satisfy
`as_i64` / `as_u64`; an absent field becomes `None`. -/
def WindowRectParameters.from_json (body : Json) : WebDriverResult WindowRectParameters := do
  let data ← tryOpt body.asObject .unknownError "Message body was not an object"
  let x ← match List.lookup "x" data with
    | some n => do
        let v ← tryOpt n.asI64 .invalidArgument "'x' is not an integer"
        pure (some v)
    | none => pure none
  let y ← match List.lookup "y" data with
    | some n => do
        let v ← tryOpt n.asI64 .invalidArgument "'y' is not an integer"
        pure (some v)
    | none => pure none
  let width ← match List.lookup "width" data with
    | some n => do
        let v ← tryOpt n.asU64 .invalidArgument "'width' is not a positive integer"
        pure (some v)
    | none => pure none
  let height ← match List.lookup "height" data with
    | some n => do
        let v ← tryOpt n.asU64 .invalidArgument "'height' is not a positive integer"
        pure (some v)
    | none => pure none
  return ⟨x, y, width, height⟩

structure SwitchToWindowParameters where
  handle : String
deriving Repr, DecidableEq

/-- `SwitchToWindowParameters::from_json`. -/
def SwitchToWindowParameters.from_json (body : Json) :
    WebDriverResult SwitchToWindowParameters := do
  let data ← tryOpt body.asObject .unknownError "Message body was not an object"
  let handle_json ← tryOpt (List.lookup "handle" data) .invalidArgument
      "Missing 'handle' parameter"
  let handle ← tryOpt handle_json.asStr .invalidArgument "'handle' not a string"
  return ⟨handle⟩

structure LocatorParameters where
  using_ : LocatorStrategy
  value : String
deriving Repr, DecidableEq

/-- `LocatorParameters::from_json`. -/
def LocatorParameters.from_json (body : Json) : WebDriverResult LocatorParameters := do
  let data ← tryOpt body.asObject .unknownError "Message body was not an object"
  let using_json ← tryOpt (List.lookup "using" data) .invalidArgument
      "Missing 'using' parameter"
  let using_ ← LocatorStrategy.from_json using_json
  let value_json ← tryOpt (List.lookup "value" data) .invalidArgument
      "Missing 'value' parameter"
  let value ← tryOpt value_json.asStr .invalidArgument
      "Could not convert using to string"
  return ⟨using_, value⟩

structure SwitchToFrameParameters where
  id : FrameId
deriving Repr, DecidableEq

/-- `SwitchToFrameParameters::from_json`: note the missing-`id` error kind is
`UnknownError`, not `InvalidArgument`. -/
def SwitchToFrameParameters.from_json (body : Json) :
    WebDriverResult SwitchToFrameParameters := do
  let data ← tryOpt body.asObject .unknownError "Message body was not an object"
  let id_json ← tryOpt (List.lookup "id" data) .unknownError "Missing 'id' parameter"
  let id ← FrameId.from_json id_json
  return ⟨id⟩

/-- `impl From<&SwitchToFrameParameters> for Value`. -/
def SwitchToFrameParameters.toValue (params : SwitchToFrameParameters) : Json :=
  Json.obj [("id", params.id.toValue)]

structure SendKeysParameters where
  text : String
deriving Repr, DecidableEq

/-- `SendKeysParameters::from_json`. -/
def SendKeysParameters.from_json (body : Json) : WebDriverResult SendKeysParameters := do
  let data ← tryOpt body.asObject .invalidArgument "Message body was not an object"
  let text_json ← tryOpt (List.lookup "text" data) .invalidArgument
      "Missing 'text' parameter"
  let text ← tryOpt text_json.asStr .invalidArgument
      "Could not convert 'text' to string"
  return ⟨text⟩

structure JavascriptCommandParameters where
  script : String
  args : Option (List Json)
deriving Repr, Inhabited

/-- `JavascriptCommandParameters::from_json`. -/
def JavascriptCommandParameters.from_json (body : Json) :
    WebDriverResult JavascriptCommandParameters := do
  let data ← tryOpt body.asObject .invalidArgument "Message body was not an object"
  let args_json ← tryOpt (List.lookup "args" data) .invalidArgument
      "Missing args parameter"
  let args_arr ← tryOpt args_json.asArray .invalidArgument
      "Failed to convert args to Array"
  let args := some args_arr
  let script_json ← tryOpt (List.lookup "script" data) .invalidArgument
      "Missing script parameter"
  let script ← tryOpt script_json.asStr .invalidArgument
      "Failed to convert script to String"
  return ⟨script, args⟩

structure GetNamedCookieParameters where
  name : Option String
deriving Repr, DecidableEq

/-- `GetNamedCookieParameters::from_json`. -/
def GetNamedCookieParameters.from_json (body : Json) :
    WebDriverResult GetNamedCookieParameters := do
  let data ← tryOpt body.asObject .invalidArgument "Message body was not an object"
  let name_json ← tryOpt (List.lookup "name" data) .invalidArgument
      "Missing 'name' parameter"
  let name ← tryOpt name_json.asStr .invalidArgument
      "Failed to convert name to string"
  return ⟨some name⟩

structure AddCookieParameters where
  name : String
  value : String
  path : Option String
  domain : Option String
  expiry : Option Date
  secure : Bool
  httpOnly : Bool
deriving Repr, DecidableEq

/-- `AddCookieParameters::from_json`: the cookie fields are read from a nested
object under the top-level `cookie` key; its absence is `UnableToSetCookie`. -/
def AddCookieParameters.from_json (body : Json) :
    WebDriverResult AddCookieParameters := do
  if body.isObject = false then
    .error (WebDriverError.new .invalidArgument "Message body was not an object")
  else do
    let data ← tryOpt ((Json.get body "cookie").bind Json.asObject)
        .unableToSetCookie "Cookie parameter not found or not an object"
    let name_json ← tryOpt (List.lookup "name" data) .invalidArgument
        "Missing 'name' parameter"
    let name ← tryOpt name_json.asStr .invalidArgument "'name' is not a string"
    let value_json ← tryOpt (List.lookup "value" data) .invalidArgument
        "Missing 'value' parameter"
    let value ← tryOpt value_json.asStr .invalidArgument "'value' is not a string"
    let path ← match List.lookup "path" data with
      | some path_json => do
          let p ← tryOpt path_json.asStr .invalidArgument
              "Failed to convert path to String"
          pure (some p)
      | none => pure none
    let domain ← match List.lookup "domain" data with
      | some domain_json => do
          let d ← tryOpt domain_json.asStr .invalidArgument
              "Failed to convert domain to String"
          pure (some d)
      | none => pure none
    let expiry ← match List.lookup "expiry" data with
      | some expiry_json => do
          let e ← tryOpt expiry_json.asU64 .invalidArgument
              "Failed to convert expiry to Date"
          pure (some (Date.mk e))
      | none => pure none
    let secure ← match List.lookup "secure" data with
      | some x => tryOpt x.asBool .invalidArgument "Failed to convert secure to boolean"
      | none => pure false
    let http_only ← match List.lookup "httpOnly" data with
      | some x => tryOpt x.asBool .invalidArgument "Failed to convert httpOnly to boolean"
      | none => pure false
    return ⟨name, value, path, domain, expiry, secure, http_only⟩

/-- `impl From<&AddCookieParameters> for Value`: the cookie fields are emitted
at the top level, with no `cookie` wrapper. -/
def AddCookieParameters.toValue (params : AddCookieParameters) : Json :=
  Json.obj
    [("name", Json.str params.name),
     ("value", Json.str params.value),
     ("path", (params.path.map Json.str).getD Json.null),
     ("domain", (params.domain.map Json.str).getD Json.null),
     ("expiry", (params.expiry.map Date.toValue).getD Json.null),
     ("secure", Json.bool params.secure),
     ("httpOnly", Json.bool params.httpOnly)]

/-! ## `src/command.rs`: the actions payload (manual decoders/encoders) -/

structure PauseAction where
  duration : Nat
deriving Repr, DecidableEq

/-- `PauseAction::from_json`: `duration` defaults to `0` when absent. -/
def PauseAction.from_json (body : Json) : WebDriverResult PauseAction := do
  let dflt := Json.num 0
  let duration ← tryOpt ((Json.get body "duration").getD dflt).asU64
      .invalidArgument "Parameter 'duration' was not a positive integer"
  return ⟨duration⟩

/-- `impl From<&PauseAction> for Value`. -/
def PauseAction.toValue (params : PauseAction) : Json :=
  Json.obj [("type", Json.str "pause"), ("duration", Json.num params.duration)]

inductive GeneralAction where
  | pause (a : PauseAction)
deriving Repr, DecidableEq

/-- `GeneralAction::from_json`. -/
def GeneralAction.from_json (body : Json) : WebDriverResult GeneralAction :=
  match (Json.get body "type").bind Json.asStr with
  | some "pause" => do
      let a ← PauseAction.from_json body
      return GeneralAction.pause a
  | _ => .error (WebDriverError.new .invalidArgument
      "Invalid or missing type attribute")

/-- `impl From<&GeneralAction> for Value`. -/
def GeneralAction.toValue (params : GeneralAction) : Json :=
  match params with
  | .pause x => x.toValue

/-- `validate_key_value` from `src/command.rs`: the `value` string must hold
exactly one character. -/
def validate_key_value (value_str : String) : WebDriverResult Char :=
  match value_str.toList with
  | [] => .error (WebDriverError.new .invalidArgument
      "Parameter 'value' was an empty string")
  | [c] => .ok c
  | _ :: _ :: _ => .error (WebDriverError.new .invalidArgument
      "Parameter 'value' contained multiple characters")

structure KeyUpAction where
  value : Char
deriving Repr, DecidableEq

/-- `KeyUpAction::from_json`. -/
def KeyUpAction.from_json (body : Json) : WebDriverResult KeyUpAction := do
  let value_json ← tryOpt (Json.get body "value") .invalidArgument
      "Missing value parameter"
  let value_str ← tryOpt value_json.asStr .invalidArgument
      "Parameter 'value' was not a string"
  let value ← validate_key_value value_str
  return ⟨value⟩

/-- `impl From<&KeyUpAction> for Value`. -/
def KeyUpAction.toValue (params : KeyUpAction) : Json :=
  Json.obj [("type", Json.str "keyUp"),
            ("value", Json.str (String.singleton params.value))]

structure KeyDownAction where
  value : Char
deriving Repr, DecidableEq

/-- `KeyDownAction::from_json`. -/
def KeyDownAction.from_json (body : Json) : WebDriverResult KeyDownAction := do
  let value_json ← tryOpt (Json.get body "value") .invalidArgument
      "Missing value parameter"
  let value_str ← tryOpt value_json.asStr .invalidArgument
      "Parameter 'value' was not a string"
  let value ← validate_key_value value_str
  return ⟨value⟩

/-- `impl From<&KeyDownAction> for Value`. -/
def KeyDownAction.toValue (params : KeyDownAction) : Json :=
  Json.obj [("type", Json.str "keyDown"),
            ("value", Json.str (String.singleton params.value))]

inductive KeyAction where
  | up (a : KeyUpAction)
  | down (a : KeyDownAction)
deriving Repr, DecidableEq

/-- `KeyAction::from_json`. -/
def KeyAction.from_json (body : Json) : WebDriverResult KeyAction :=
  match (Json.get body "type").bind Json.asStr with
  | some "keyDown" => do
      let a ← KeyDownAction.from_json body
      return KeyAction.down a
  | some "keyUp" => do
      let a ← KeyUpAction.from_json body
      return KeyAction.up a
  | _ => .error (WebDriverError.new .invalidArgument
      "Invalid type attribute value for key action")

/-- `impl From<&KeyAction> for Value`. -/
def KeyAction.toValue (params : KeyAction) : Json :=
  match params with
  | .down x => x.toValue
  | .up x => x.toValue

inductive PointerType where
  | mouse
  | pen
  | touch
deriving Repr, DecidableEq

/-- `PointerType::from_json`. -/
def PointerType.from_json (body : Json) : WebDriverResult PointerType :=
  match body.asStr with
  | some "mouse" => .ok PointerType.mouse
  | some "pen" => .ok PointerType.pen
  | some "touch" => .ok PointerType.touch
  | some _ => .error (WebDriverError.new .invalidArgument "Unsupported pointer type")
  | none => .error (WebDriverError.new .invalidArgument "Pointer type was not a string")

/-- `impl From<&PointerType> for Value`. -/
def PointerType.toValue (params : PointerType) : Json :=
  match params with
  | .mouse => Json.str "mouse"
  | .pen => Json.str "pen"
  | .touch => Json.str "touch"

structure PointerActionParameters where
  pointer_type : PointerType
deriving Repr, DecidableEq

/-- `impl Default for PointerType` / `#[derive(Default)]` on
`PointerActionParameters`: the default pointer type is `mouse`. -/
def PointerActionParameters.default : PointerActionParameters :=
  ⟨PointerType.mouse⟩

/-- `PointerActionParameters::from_json`: `pointerType` defaults to mouse. -/
def PointerActionParameters.from_json (body : Json) :
    WebDriverResult PointerActionParameters := do
  let data ← tryOpt body.asObject .invalidArgument
      "Parameter 'parameters' was not an object"
  let pointer_type ← match List.lookup "pointerType" data with
    | some x => PointerType.from_json x
    | none => pure PointerType.mouse
  return ⟨pointer_type⟩

/-- `impl From<&PointerActionParameters> for Value`. -/
def PointerActionParameters.toValue (params : PointerActionParameters) : Json :=
  Json.obj [("pointerType", params.pointer_type.toValue)]

inductive PointerOrigin where
  | viewport
  | pointer
  | element (e : WebElement)
deriving Repr, DecidableEq

/-- `PointerOrigin::from_json`: any JSON object is attempted as an element
reference. -/
def PointerOrigin.from_json (body : Json) : WebDriverResult PointerOrigin :=
  match body with
  | .str x =>
      match x with
      | "viewport" => .ok PointerOrigin.viewport
      | "pointer" => .ok PointerOrigin.pointer
      | _ => .error (WebDriverError.new .invalidArgument "Unknown pointer origin")
  | .obj fields => do
      let e ← WebElement.from_json (.obj fields)
      return PointerOrigin.element e
  | _ => .error (WebDriverError.new .invalidArgument
      "Pointer origin was not a string or an object")

/-- `impl From<&PointerOrigin> for Value`. -/
def PointerOrigin.toValue (params : PointerOrigin) : Json :=
  match params with
  | .viewport => Json.str "viewport"
  | .pointer => Json.str "pointer"
  | .element x => x.toValue

structure PointerUpAction where
  button : Nat
deriving Repr, DecidableEq

/-- `PointerUpAction::from_json`. -/
def PointerUpAction.from_json (body : Json) : WebDriverResult PointerUpAction := do
  let button_json ← tryOpt (Json.get body "button") .invalidArgument
      "Missing button parameter"
  let button ← tryOpt button_json.asU64 .invalidArgument
      "Parameter 'button' was not a positive integer"
  return ⟨button⟩

/-- `impl From<&PointerUpAction> for Value`. -/
def PointerUpAction.toValue (params : PointerUpAction) : Json :=
  Json.obj [("type", Json.str "pointerUp"), ("button", Json.num params.button)]

structure PointerDownAction where
  button : Nat
deriving Repr, DecidableEq

/-- `PointerDownAction::from_json`. -/
def PointerDownAction.from_json (body : Json) : WebDriverResult PointerDownAction := do
  let button_json ← tryOpt (Json.get body "button") .invalidArgument
      "Missing button parameter"
  let button ← tryOpt button_json.asU64 .invalidArgument
      "Parameter 'button' was not a positive integer"
  return ⟨button⟩

/-- `impl From<&PointerDownAction> for Value`. -/
def PointerDownAction.toValue (params : PointerDownAction) : Json :=
  Json.obj [("type", Json.str "pointerDown"), ("button", Json.num params.button)]

structure PointerMoveAction where
  duration : Option Nat
  origin : PointerOrigin
  x : Option Int
  y : Option Int
deriving Repr, DecidableEq

/-- `PointerMoveAction::from_json`: optional duration / x / y, origin defaults
to viewport. -/
def PointerMoveAction.from_json (body : Json) : WebDriverResult PointerMoveAction := do
  let duration ← match Json.get body "duration" with
    | some d => do
        let v ← tryOpt d.asU64 .invalidArgument
            "Parameter 'duration' was not a positive integer"
        pure (some v)
    | none => pure none
  let origin ← match Json.get body "origin" with
    | some o => PointerOrigin.from_json o
    | none => pure PointerOrigin.viewport
  let x ← match Json.get body "x" with
    | some v => do
        let i ← tryOpt v.asI64 .invalidArgument "Parameter 'x' was not an integer"
        pure (some i)
    | none => pure none
  let y ← match Json.get body "y" with
    | some v => do
        let i ← tryOpt v.asI64 .invalidArgument "Parameter 'y' was not an integer"
        pure (some i)
    | none => pure none
  return ⟨duration, origin, x, y⟩

/-- `impl From<&PointerMoveAction> for Value`: `duration`, `x`, `y` are emitted
only when present; `origin` is always emitted. -/
def PointerMoveAction.toValue (params : PointerMoveAction) : Json :=
  Json.obj
    ([("type", Json.str "pointerMove")]
      ++ (match params.duration with
          | some d => [("duration", Json.num d)]
          | none => [])
      ++ [("origin", params.origin.toValue)]
      ++ (match params.x with
          | some x => [("x", Json.num x)]
          | none => [])
      ++ (match params.y with
          | some y => [("y", Json.num y)]
          | none => []))

inductive PointerAction where
  | up (a : PointerUpAction)
  | down (a : PointerDownAction)
  | move (a : PointerMoveAction)
  | cancel
deriving Repr, DecidableEq

/-- `PointerAction::from_json`. -/
def PointerAction.from_json (body : Json) : WebDriverResult PointerAction :=
  match (Json.get body "type").bind Json.asStr with
  | some "pointerUp" => do
      let a ← PointerUpAction.from_json body
      return PointerAction.up a
  | some "pointerDown" => do
      let a ← PointerDownAction.from_json body
      return PointerAction.down a
  | some "pointerMove" => do
      let a ← PointerMoveAction.from_json body
      return PointerAction.move a
  | some "pointerCancel" => .ok PointerAction.cancel
  | _ => .error (WebDriverError.new .invalidArgument
      "Missing or invalid type argument for pointer action")

/-- `impl From<&PointerAction> for Value`. -/
def PointerAction.toValue (params : PointerAction) : Json :=
  match params with
  | .down x => x.toValue
  | .up x => x.toValue
  | .move x => x.toValue
  | .cancel => Json.obj [("type", Json.str "pointerCancel")]

inductive NullActionItem where
  | general (a : GeneralAction)
deriving Repr, DecidableEq

/-- `NullActionItem::from_json`: only `pause` is accepted. -/
def NullActionItem.from_json (body : Json) : WebDriverResult NullActionItem := do
  let data ← tryOpt body.asObject .invalidArgument "Actions chain was not an object"
  let type_json ← tryOpt (List.lookup "type" data) .invalidArgument
      "Missing 'type' parameter"
  let type_name ← tryOpt type_json.asStr .invalidArgument
      "Parameter 'type' was not a string"
  match type_name with
  | "pause" => do
      let a ← GeneralAction.from_json body
      return NullActionItem.general a
  | _ => .error (WebDriverError.new .invalidArgument "Invalid type attribute")

/-- `impl From<&NullActionItem> for Value`. -/
def NullActionItem.toValue (params : NullActionItem) : Json :=
  match params with
  | .general x => x.toValue

inductive KeyActionItem where
  | general (a : GeneralAction)
  | key (a : KeyAction)
deriving Repr, DecidableEq

/-- `KeyActionItem::from_json`: `pause` goes to the general path, everything
else is dispatched as a key action. -/
def KeyActionItem.from_json (body : Json) : WebDriverResult KeyActionItem := do
  let data ← tryOpt body.asObject .invalidArgument "Key action item was not an object"
  let type_json ← tryOpt (List.lookup "type" data) .invalidArgument
      "Missing 'type' parameter"
  let type_name ← tryOpt type_json.asStr .invalidArgument
      "Parameter 'type' was not a string"
  match type_name with
  | "pause" => do
      let a ← GeneralAction.from_json body
      return KeyActionItem.general a
  | _ => do
      let a ← KeyAction.from_json body
      return KeyActionItem.key a

/-- `impl From<&KeyActionItem> for Value`. -/
def KeyActionItem.toValue (params : KeyActionItem) : Json :=
  match params with
  | .general x => x.toValue
  | .key x => x.toValue

inductive PointerActionItem where
  | general (a : GeneralAction)
  | pointer (a : PointerAction)
deriving Repr, DecidableEq

/-- `PointerActionItem::from_json`: `pause` goes to the general path,
everything else is dispatched as a pointer action. -/
def PointerActionItem.from_json (body : Json) : WebDriverResult PointerActionItem := do
  let data ← tryOpt body.asObject .invalidArgument
      "Pointer action item was not an object"
  let type_json ← tryOpt (List.lookup "type" data) .invalidArgument
      "Missing 'type' parameter"
  let type_name ← tryOpt type_json.asStr .invalidArgument
      "Parameter 'type' was not a string"
  match type_name with
  | "pause" => do
      let a ← GeneralAction.from_json body
      return PointerActionItem.general a
  | _ => do
      let a ← PointerAction.from_json body
      return PointerActionItem.pointer a

/-- `impl From<&PointerActionItem> for Value`. -/
def PointerActionItem.toValue (params : PointerActionItem) : Json :=
  match params with
  | .general x => x.toValue
  | .pointer x => x.toValue

inductive ActionsType where
  | nullActions (items : List NullActionItem)
  | keyActions (items : List KeyActionItem)
  | pointerActions (parameters : PointerActionParameters)
      (items : List PointerActionItem)
deriving Repr, DecidableEq

/-- The item-decoding loop (`for action_body in actions_chain.iter() { ...
try!(...from_json...) }`): decode each element in order, first error wins. -/
def decodeItems {α : Type} (dec : Json → WebDriverResult α) :
    List Json → WebDriverResult (List α)
  | [] => .ok []
  | x :: xs => do
      let a ← dec x
      let rest ← decodeItems dec xs
      return a :: rest

/-- `ActionsType::from_json`. The source `expect`s/`panic`s on a non-object
body or missing/unknown `type` because `ActionSequence::from_json` has already
validated them; those unreachable branches are modelled as `UnknownError`
results so the function stays total. -/
def ActionsType.from_json (body : Json) : WebDriverResult ActionsType := do
  let data ← tryOpt body.asObject .unknownError "Body should be a JSON Object"
  let actions_type ← tryOpt ((Json.get body "type").bind Json.asStr)
      .unknownError "Type should be a string"
  let actions_json ← tryOpt (List.lookup "actions" data) .invalidArgument
      "Missing actions parameter"
  let actions_chain ← tryOpt actions_json.asArray .invalidArgument
      "Parameter 'actions' was not an array"
  match actions_type with
  | "none" => do
      let actions ← decodeItems NullActionItem.from_json actions_chain
      return ActionsType.nullActions actions
  | "key" => do
      let actions ← decodeItems KeyActionItem.from_json actions_chain
      return ActionsType.keyActions actions
  | "pointer" => do
      let parameters ← match List.lookup "parameters" data with
        | some x => PointerActionParameters.from_json x
        | none => pure PointerActionParameters.default
      let actions ← decodeItems PointerActionItem.from_json actions_chain
      return ActionsType.pointerActions parameters actions
  | _ => .error (WebDriverError.new .unknownError
      "Got unexpected action type after checking type")

structure ActionSequence where
  id : Option String
  actions : ActionsType
deriving Repr, DecidableEq

/-- `ActionSequence::from_json`. -/
def ActionSequence.from_json (body : Json) : WebDriverResult ActionSequence := do
  let data ← tryOpt body.asObject .invalidArgument "Actions chain was not an object"
  let type_json ← tryOpt (List.lookup "type" data) .invalidArgument
      "Missing type parameter"
  let type_name ← tryOpt type_json.asStr .invalidArgument
      "Parameter ;type' was not a string"
  let id ← match List.lookup "id" data with
    | some x => do
        let s ← tryOpt x.asStr .invalidArgument "Parameter 'id' was not a string"
        pure (some s)
    | none => pure none
  let actions ← match type_name with
    | "none" | "key" | "pointer" => ActionsType.from_json body
    | _ => .error (WebDriverError.new .invalidArgument "Invalid action type")
  return ⟨id, actions⟩

/-- `impl From<&ActionSequence> for Value`: `id` is always emitted (`null` when
absent); `parameters` is emitted only for pointer sequences. -/
def ActionSequence.toValue (params : ActionSequence) : Json :=
  let idv := match params.id with
    | some x => Json.str x
    | none => Json.null
  match params.actions with
  | .nullActions items =>
      Json.obj [("id", idv), ("type", Json.str "none"),
                ("actions", Json.arr (items.map NullActionItem.toValue))]
  | .keyActions items =>
      Json.obj [("id", idv), ("type", Json.str "key"),
                ("actions", Json.arr (items.map KeyActionItem.toValue))]
  | .pointerActions parameters items =>
      Json.obj [("id", idv), ("parameters", parameters.toValue),
                ("type", Json.str "pointer"),
                ("actions", Json.arr (items.map PointerActionItem.toValue))]

structure ActionsParameters where
  actions : List ActionSequence
deriving Repr, DecidableEq

/-- `ActionsParameters::from_json`. -/
def ActionsParameters.from_json (body : Json) : WebDriverResult ActionsParameters := do
  let _ ← tryOpt body.asObject .invalidArgument "Message body was not an object"
  let actions_json ← tryOpt (Json.get body "actions") .invalidArgument
      "No actions parameter found"
  let actions_arr ← tryOpt actions_json.asArray .invalidArgument
      "Parameter 'actions' was not an array"
  let result ← decodeItems ActionSequence.from_json actions_arr
  return ⟨result⟩

/-- `impl From<&ActionsParameters> for Value`. -/
def ActionsParameters.toValue (params : ActionsParameters) : Json :=
  Json.obj [("actions", Json.arr (params.actions.map ActionSequence.toValue))]

/-! ## `src/response.rs` -/

/-- One character of `serde_json`'s string escaping. -/
def escapeChar (c : Char) : String :=
  if c = '"' then "\\\""
  else if c = '\\' then "\\\\"
  else if c = '\n' then "\\n"
  else if c = '\r' then "\\r"
  else if c = '\t' then "\\t"
  else if c.toNat = 8 then "\\b"
  else if c.toNat = 12 then "\\f"
  else if c.toNat < 32 then
    let hexDigit : Nat → Char := fun n =>
      if n < 10 then Char.ofNat (48 + n) else Char.ofNat (87 + n)
    "\\u00" ++ String.singleton (hexDigit (c.toNat / 16))
      ++ String.singleton (hexDigit (c.toNat % 16))
  else String.singleton c

/-- `serde_json`'s serialization of a JSON string (quoted, escaped). -/
def serializeString (s : String) : String :=
  "\"" ++ String.join (s.toList.map escapeChar) ++ "\""

/-- `serde_json::to_string` on a `Value` (compact, object fields in stored
order). -/
def serializeValue : Json → String
  | .null => "null"
  | .bool true => "true"
  | .bool false => "false"
  | .num n => toString n
  | .str s => serializeString s
  | .arr elems =>
      "[" ++ String.intercalate ","
        (elems.attach.map (fun x => serializeValue x.1)) ++ "]"
  | .obj fields =>
      "\x7b" ++ String.intercalate ","
        (fields.attach.map (fun x => serializeString x.1.1 ++ ":" ++ serializeValue x.1.2))
        ++ "\x7d"
decreasing_by
  · have := List.sizeOf_lt_of_mem x.2
    simp at this ⊢
    omega
  · obtain ⟨⟨k, v⟩, hx⟩ := x
    have := List.sizeOf_lt_of_mem hx
    simp [Prod.mk.sizeOf_spec] at this ⊢
    omega

/-- Modelled from the spec: `serde_json`'s rendering of an `f64` (external
library detail; no claim depends on its digits). -/
def serializeFloat (f : Float) : String :=
  toString f

structure CloseWindowResponse where
  window_handles : List String
deriving Repr, DecidableEq

/-- `impl From<&CloseWindowResponse> for Value`: the bare array of handles. -/
def CloseWindowResponse.toValue (resp : CloseWindowResponse) : Json :=
  Json.arr (resp.window_handles.map Json.str)

structure NewSessionResponse where
  sessionId : String
  capabilities : Json
deriving Repr

/-- `#[derive(Serialize)]` on `NewSessionResponse` (field order preserved). -/
def NewSessionResponse.toValue (resp : NewSessionResponse) : Json :=
  Json.obj [("sessionId", Json.str resp.sessionId),
            ("capabilities", resp.capabilities)]

structure TimeoutsResponse where
  script : Nat
  pageLoad : Nat
  implicit : Nat
deriving Repr, DecidableEq

/-- `#[derive(Serialize)]` on `TimeoutsResponse`. -/
def TimeoutsResponse.toValue (resp : TimeoutsResponse) : Json :=
  Json.obj [("script", Json.num resp.script),
            ("pageLoad", Json.num resp.pageLoad),
            ("implicit", Json.num resp.implicit)]

structure ValueResponse where
  value : Json
deriving Repr

/-- `#[derive(Serialize)]` on `ValueResponse`: the payload sits under a
top-level `value` key of its own. -/
def ValueResponse.toValue (resp : ValueResponse) : Json :=
  Json.obj [("value", resp.value)]

structure WindowRectResponse where
  x : Int
  y : Int
  width : Nat
  height : Nat
deriving Repr, DecidableEq

/-- `#[derive(Serialize)]` on `WindowRectResponse`. -/
def WindowRectResponse.toValue (resp : WindowRectResponse) : Json :=
  Json.obj [("x", Json.num resp.x), ("y", Json.num resp.y),
            ("width", Json.num resp.width), ("height", Json.num resp.height)]

structure ElementRectResponse where
  x : Float
  y : Float
  width : Float
  height : Float
deriving Repr

/-- `#[derive(Serialize)]` on `ElementRectResponse` (f64 fields; rendering of
the digits is external, see `serializeFloat`). -/
def serializeElementRect (resp : ElementRectResponse) : String :=
  "\x7b\"x\":" ++ serializeFloat resp.x ++ ",\"y\":" ++ serializeFloat resp.y
    ++ ",\"width\":" ++ serializeFloat resp.width
    ++ ",\"height\":" ++ serializeFloat resp.height ++ "\x7d"

structure Cookie where
  name : String
  value : String
  path : Option String
  domain : Option String
  expiry : Option Date
  secure : Bool
  httpOnly : Bool
deriving Repr, DecidableEq

/-- `#[derive(Serialize)]` on `Cookie` (field order preserved; `Option`
serializes `None` as `null`, `Date` as its inner integer). -/
def Cookie.toValue (c : Cookie) : Json :=
  Json.obj
    [("name", Json.str c.name),
     ("value", Json.str c.value),
     ("path", (c.path.map Json.str).getD Json.null),
     ("domain", (c.domain.map Json.str).getD Json.null),
     ("expiry", (c.expiry.map Date.toValue).getD Json.null),
     ("secure", Json.bool c.secure),
     ("httpOnly", Json.bool c.httpOnly)]

structure CookieResponse where
  value : List Cookie
deriving Repr, DecidableEq

/-- `#[derive(Serialize)]` on `CookieResponse`: the cookie list sits under a
top-level `value` key of its own. -/
def CookieResponse.toValue (resp : CookieResponse) : Json :=
  Json.obj [("value", Json.arr (resp.value.map Cookie.toValue))]

inductive WebDriverResponse where
  | closeWindow (r : CloseWindowResponse)
  | cookie (r : CookieResponse)
  | deleteSession
  | elementRect (r : ElementRectResponse)
  | generic (r : ValueResponse)
  | newSession (r : NewSessionResponse)
  | timeouts (r : TimeoutsResponse)
  | void
  | windowRect (r : WindowRectResponse)
deriving Repr

/-- `WebDriverResponse::to_json_string` from `src/response.rs`: serialize the
variant's body, then wrap it as `{"value": <body>}` unless the variant is
`Generic` or `Cookie`. -/
def WebDriverResponse.to_json_string (resp : WebDriverResponse) : String :=
  let obj := match resp with
    | .closeWindow x => serializeValue x.toValue
    | .cookie x => serializeValue x.toValue
    | .deleteSession => "\x7b\x7d"
    | .elementRect x => serializeElementRect x
    | .generic x => serializeValue x.toValue
    | .newSession x => serializeValue x.toValue
    | .timeouts x => serializeValue x.toValue
    | .void => "\x7b\x7d"
    | .windowRect x => serializeValue x.toValue
  match resp with
  | .generic _ | .cookie _ => obj
  | _ => "\x7b\"value\": " ++ obj ++ "\x7d"

/-! ## `WebDriverMessage::decode_body` from `src/command.rs` -/

/-- Modelled from the spec: the outcome of the external `serde_json::from_str`
parser on the raw body text — either a JSON value or a syntax failure carrying
the line and column reported by the parser (`e.line()`, `e.column()`; the
`is_io` branch cannot trigger for in-memory input). -/
inductive ParseResult where
  | ok (v : Json)
  | parseFailure (line col : Nat)
deriving Repr

/-- `WebDriverMessage::decode_body`, parameterized by the external JSON
parser: with `requires_body = false` the body is never parsed; otherwise the
parse must yield a JSON object, a non-object is `InvalidArgument`, and a
syntax error is `InvalidArgument` with the parse position carried in the
separate stack string. -/
def decode_body (parse : String → ParseResult) (body : String)
    (requires_body : Bool) : WebDriverResult Json :=
  if requires_body then
    match parse body with
    | .ok (Json.obj fields) => .ok (Json.obj fields)
    | .ok _ => .error (WebDriverError.new .invalidArgument
        "Body was not a JSON Object")
    | .parseFailure line col =>
        .error (WebDriverError.newWithStack .invalidArgument
          ("Failed to decode request as JSON: " ++ body)
          ("Syntax error at :" ++ toString line ++ ":" ++ toString col))
  else
    .ok Json.null

/-! ## Well-formedness of action values

A decoded action value only ever holds numbers that fit the Rust field types
(`u64` for durations and buttons, `i64` for coordinates); `wf` states exactly
those bounds for an arbitrarily constructed value, delimiting the "valid"
values the round-trip law quantifies over. -/

def PauseAction.wf (a : PauseAction) : Bool :=
  decide (a.duration ≤ u64Max)

def GeneralAction.wf : GeneralAction → Bool
  | .pause a => a.wf

def NullActionItem.wf : NullActionItem → Bool
  | .general a => a.wf

def KeyActionItem.wf : KeyActionItem → Bool
  | .general a => a.wf
  | .key _ => true

def PointerMoveAction.wf (a : PointerMoveAction) : Bool :=
  (match a.duration with
   | some d => decide (d ≤ u64Max)
   | none => true)
  && (match a.x with
      | some x => decide (i64Min ≤ x ∧ x ≤ i64Max)
      | none => true)
  && (match a.y with
      | some y => decide (i64Min ≤ y ∧ y ≤ i64Max)
      | none => true)

def PointerAction.wf : PointerAction → Bool
  | .up a => decide (a.button ≤ u64Max)
  | .down a => decide (a.button ≤ u64Max)
  | .move a => a.wf
  | .cancel => true

def PointerActionItem.wf : PointerActionItem → Bool
  | .general a => a.wf
  | .pointer a => a.wf

def ActionsType.wf : ActionsType → Bool
  | .nullActions items => items.all NullActionItem.wf
  | .keyActions items => items.all KeyActionItem.wf
  | .pointerActions _ items => items.all PointerActionItem.wf

def ActionSequence.wf (s : ActionSequence) : Bool :=
  s.actions.wf

/-! ## Shared helper lemmas -/

theorem asU64_natCast (d : Nat) (h : d ≤ u64Max) :
    Json.asU64 (Json.num (d : Int)) = some d := by
  show (if 0 ≤ (d : Int) ∧ (d : Int) ≤ (u64Max : Int) then some ((d : Int)).toNat
        else none) = some d
  rw [if_pos ⟨Int.natCast_nonneg d, by exact_mod_cast h⟩]
  simp

theorem asI64_of_bounds (x : Int) (h1 : i64Min ≤ x) (h2 : x ≤ i64Max) :
    Json.asI64 (Json.num x) = some x := by
  show (if i64Min ≤ x ∧ x ≤ i64Max then some x else none) = some x
  rw [if_pos ⟨h1, h2⟩]

theorem decodeItems_map {α : Type} (f : α → Json) (g : Json → WebDriverResult α)
    (l : List α) (h : ∀ a ∈ l, g (f a) = .ok a) :
    decodeItems g (l.map f) = .ok l := by
  induction l with
  | nil => rfl
  | cons x xs ih =>
      simp only [List.map_cons, decodeItems, h x (by simp),
        ih (fun a ha => h a (List.mem_cons_of_mem _ ha)), Bind.bind, Except.bind,
        Pure.pure, Except.pure]

theorem nullActionItem_roundtrip (it : NullActionItem) (h : it.wf = true) :
    NullActionItem.from_json it.toValue = .ok it := by
  obtain ⟨⟨⟨d⟩⟩⟩ := it
  simp only [NullActionItem.wf, GeneralAction.wf, PauseAction.wf,
    decide_eq_true_eq] at h
  simp [NullActionItem.toValue, GeneralAction.toValue, PauseAction.toValue,
    NullActionItem.from_json, Json.asObject, tryOpt, List.lookup, Json.asStr,
    GeneralAction.from_json, Json.get, PauseAction.from_json,
    asU64_natCast d h, Bind.bind, Except.bind, Pure.pure, Except.pure]

theorem keyActionItem_roundtrip (it : KeyActionItem) (h : it.wf = true) :
    KeyActionItem.from_json it.toValue = .ok it := by
  cases it with
  | general a =>
      obtain ⟨⟨d⟩⟩ := a
      simp only [KeyActionItem.wf, GeneralAction.wf, PauseAction.wf,
        decide_eq_true_eq] at h
      simp [KeyActionItem.toValue, GeneralAction.toValue, PauseAction.toValue,
        KeyActionItem.from_json, Json.asObject, tryOpt, List.lookup, Json.asStr,
        GeneralAction.from_json, Json.get, PauseAction.from_json,
        asU64_natCast d h, Bind.bind, Except.bind, Pure.pure, Except.pure]
  | key a =>
      cases a with
      | up u => rfl
      | down u => rfl

theorem pointerOrigin_roundtrip (o : PointerOrigin) :
    PointerOrigin.from_json o.toValue = .ok o := by
  cases o with
  | viewport => rfl
  | pointer => rfl
  | element e => rfl

theorem pointerMove_roundtrip (a : PointerMoveAction) (h : a.wf = true) :
    PointerMoveAction.from_json a.toValue = .ok a := by
  obtain ⟨dur, origin, x, y⟩ := a
  simp only [PointerMoveAction.wf, Bool.and_eq_true] at h
  obtain ⟨⟨hd, hx⟩, hy⟩ := h
  cases dur <;> cases x <;> cases y <;>
    simp_all [PointerMoveAction.toValue, PointerMoveAction.from_json, Json.get,
      List.lookup, tryOpt, asU64_natCast, asI64_of_bounds, pointerOrigin_roundtrip,
      Bind.bind, Except.bind, Pure.pure, Except.pure, decide_eq_true_eq]

/-- The encoding of a pointer-move action always starts with its `type` tag. -/
theorem pointerMove_toValue_shape (m : PointerMoveAction) :
    ∃ rest, m.toValue = Json.obj (("type", Json.str "pointerMove") :: rest) := by
  obtain ⟨d, o, x, y⟩ := m
  exact ⟨_, rfl⟩

theorem pointerActionItem_roundtrip (it : PointerActionItem) (h : it.wf = true) :
    PointerActionItem.from_json it.toValue = .ok it := by
  cases it with
  | general a =>
      obtain ⟨⟨d⟩⟩ := a
      simp only [PointerActionItem.wf, GeneralAction.wf, PauseAction.wf,
        decide_eq_true_eq] at h
      simp [PointerActionItem.toValue, GeneralAction.toValue, PauseAction.toValue,
        PointerActionItem.from_json, Json.asObject, tryOpt, List.lookup, Json.asStr,
        GeneralAction.from_json, Json.get, PauseAction.from_json,
        asU64_natCast d h, Bind.bind, Except.bind, Pure.pure, Except.pure]
  | pointer a =>
      cases a with
      | up u =>
          simp only [PointerActionItem.wf, PointerAction.wf, decide_eq_true_eq] at h
          simp [PointerActionItem.toValue, PointerAction.toValue,
            PointerUpAction.toValue, PointerActionItem.from_json, Json.asObject,
            tryOpt, List.lookup, Json.asStr, PointerAction.from_json, Json.get,
            PointerUpAction.from_json, asU64_natCast _ h, Bind.bind, Except.bind,
            Pure.pure, Except.pure]
      | down u =>
          simp only [PointerActionItem.wf, PointerAction.wf, decide_eq_true_eq] at h
          simp [PointerActionItem.toValue, PointerAction.toValue,
            PointerDownAction.toValue, PointerActionItem.from_json, Json.asObject,
            tryOpt, List.lookup, Json.asStr, PointerAction.from_json, Json.get,
            PointerDownAction.from_json, asU64_natCast _ h, Bind.bind, Except.bind,
            Pure.pure, Except.pure]
      | move m =>
          simp only [PointerActionItem.wf, PointerAction.wf] at h
          have hm := pointerMove_roundtrip m h
          obtain ⟨rest, hz⟩ := pointerMove_toValue_shape m
          rw [hz] at hm
          simp only [PointerActionItem.toValue, PointerAction.toValue, hz]
          simp [PointerActionItem.from_json, Json.asObject, tryOpt, List.lookup,
            Json.asStr, PointerAction.from_json, Json.get, hm, Bind.bind,
            Except.bind, Pure.pure, Except.pure]
      | cancel => rfl

theorem pointerParameters_roundtrip (p : PointerActionParameters) :
    PointerActionParameters.from_json p.toValue = .ok p := by
  obtain ⟨pt⟩ := p
  cases pt <;> rfl

theorem validate_key_value_multi (s : String) (h : 2 ≤ s.length) :
    validate_key_value s
      = .error (WebDriverError.new .invalidArgument
          "Parameter 'value' contained multiple characters") := by
  have hlen : s.length = s.toList.length := rfl
  rcases hd : s.toList with _ | ⟨a, _ | ⟨b, t⟩⟩
  · rw [hd] at hlen
    simp at hlen
    omega
  · rw [hd] at hlen
    simp at hlen
    omega
  · unfold validate_key_value
    rw [hd]

/-! ## Claims -/

/-- C1 (counterexample): the round-trip law fails when the sequence id is
absent — the encoder emits `"id": null` and the decoder then rejects the
sequence with `InvalidArgument`, instead of reproducing the value. -/
theorem actionSequence_roundtrip_loses_missing_id :
    ActionSequence.from_json (ActionSequence.toValue
        ⟨none, ActionsType.nullActions []⟩)
      = .error (WebDriverError.new .invalidArgument
          "Parameter 'id' was not a string") ∧
    ActionSequence.from_json (ActionSequence.toValue
        ⟨none, ActionsType.nullActions []⟩)
      ≠ .ok ⟨none, ActionsType.nullActions []⟩ :=
  ⟨rfl, fun h => Except.noConfusion h⟩

/-- C1 (amended): for every well-formed `ActionSequence` whose `id` is
present, decoding the encoding reproduces the value exactly. (When `id` is
absent the encoder writes `"id": null`, which the decoder rejects — see the
counterexample.) -/
theorem actionSequence_roundtrip (s : ActionSequence) (hid : s.id.isSome = true)
    (hwf : s.wf = true) :
    ActionSequence.from_json s.toValue = .ok s := by
  obtain ⟨id, actions⟩ := s
  obtain ⟨i, rfl⟩ := Option.isSome_iff_exists.mp hid
  simp only [ActionSequence.wf] at hwf
  cases actions with
  | nullActions items =>
      simp only [ActionsType.wf, List.all_eq_true] at hwf
      have hdec := decodeItems_map NullActionItem.toValue NullActionItem.from_json
        items (fun a ha => nullActionItem_roundtrip a (hwf a ha))
      simp [ActionSequence.toValue, ActionSequence.from_json, ActionsType.from_json,
        Json.asObject, tryOpt, List.lookup, Json.asStr, Json.get, Json.asArray,
        hdec, Bind.bind, Except.bind, Pure.pure, Except.pure]
  | keyActions items =>
      simp only [ActionsType.wf, List.all_eq_true] at hwf
      have hdec := decodeItems_map KeyActionItem.toValue KeyActionItem.from_json
        items (fun a ha => keyActionItem_roundtrip a (hwf a ha))
      simp [ActionSequence.toValue, ActionSequence.from_json, ActionsType.from_json,
        Json.asObject, tryOpt, List.lookup, Json.asStr, Json.get, Json.asArray,
        hdec, Bind.bind, Except.bind, Pure.pure, Except.pure]
  | pointerActions params items =>
      simp only [ActionsType.wf, List.all_eq_true] at hwf
      have hdec := decodeItems_map PointerActionItem.toValue
        PointerActionItem.from_json items
        (fun a ha => pointerActionItem_roundtrip a (hwf a ha))
      simp [ActionSequence.toValue, ActionSequence.from_json, ActionsType.from_json,
        Json.asObject, tryOpt, List.lookup, Json.asStr, Json.get, Json.asArray,
        hdec, pointerParameters_roundtrip, Bind.bind, Except.bind, Pure.pure,
        Except.pure]

/-- C1 (witness): the round trip at a concrete key sequence with a present id. -/
theorem actionSequence_roundtrip_witness :
    (ActionSequence.mk (some "seq")
        (ActionsType.keyActions [KeyActionItem.key (KeyAction.down ⟨'a'⟩)])).id.isSome
      = true ∧
    (ActionSequence.mk (some "seq")
        (ActionsType.keyActions [KeyActionItem.key (KeyAction.down ⟨'a'⟩)])).wf
      = true ∧
    ActionSequence.from_json (ActionSequence.toValue (ActionSequence.mk (some "seq")
        (ActionsType.keyActions [KeyActionItem.key (KeyAction.down ⟨'a'⟩)])))
      = .ok (ActionSequence.mk (some "seq")
          (ActionsType.keyActions [KeyActionItem.key (KeyAction.down ⟨'a'⟩)])) :=
  ⟨rfl, rfl, actionSequence_roundtrip _ rfl rfl⟩

/-- C2 (counterexample): encoding `DeleteSession` does not yield the literal
empty object `{}`; the empty-object body is wrapped, yielding
`{"value": {}}`. -/
theorem deleteSession_encodes_wrapped :
    WebDriverResponse.deleteSession.to_json_string = "\x7b\"value\": \x7b\x7d\x7d" ∧
    WebDriverResponse.deleteSession.to_json_string ≠ "\x7b\x7d" :=
  ⟨rfl, by decide⟩

/-- C2 (amended): every response variant's serialized body is wrapped as
`{"value": <body>}` except `Generic` and `Cookie`, which are emitted
unwrapped because their own serialization already places the payload under a
top-level `value` key; `DeleteSession` and `Void` serialize their body as the
empty object and are then wrapped, encoding as `{"value": {}}` (not as the
bare `{}`). -/
theorem response_envelope_rule :
    (∀ v, (WebDriverResponse.generic v).to_json_string = serializeValue v.toValue) ∧
    (∀ v : ValueResponse, v.toValue = Json.obj [("value", v.value)]) ∧
    (∀ c, (WebDriverResponse.cookie c).to_json_string = serializeValue c.toValue) ∧
    (∀ c : CookieResponse, c.toValue
        = Json.obj [("value", Json.arr (c.value.map Cookie.toValue))]) ∧
    (∀ r, (WebDriverResponse.closeWindow r).to_json_string
        = "\x7b\"value\": " ++ serializeValue r.toValue ++ "\x7d") ∧
    (∀ r, (WebDriverResponse.newSession r).to_json_string
        = "\x7b\"value\": " ++ serializeValue r.toValue ++ "\x7d") ∧
    (∀ r, (WebDriverResponse.timeouts r).to_json_string
        = "\x7b\"value\": " ++ serializeValue r.toValue ++ "\x7d") ∧
    (∀ r, (WebDriverResponse.windowRect r).to_json_string
        = "\x7b\"value\": " ++ serializeValue r.toValue ++ "\x7d") ∧
    (∀ r, (WebDriverResponse.elementRect r).to_json_string
        = "\x7b\"value\": " ++ serializeElementRect r ++ "\x7d") ∧
    WebDriverResponse.deleteSession.to_json_string = "\x7b\"value\": \x7b\x7d\x7d" ∧
    WebDriverResponse.void.to_json_string = "\x7b\"value\": \x7b\x7d\x7d" :=
  ⟨fun _ => rfl, fun _ => rfl, fun _ => rfl, fun _ => rfl, fun _ => rfl,
   fun _ => rfl, fun _ => rfl, fun _ => rfl, fun _ => rfl, rfl, rfl⟩

/-- C3 (counterexample): the switch-to-frame decoder reports a missing `id`
with kind `UnknownError`, not `InvalidArgument`. -/
theorem switchToFrame_missing_id_wrong_kind :
    SwitchToFrameParameters.from_json (Json.obj [])
      = .error (WebDriverError.new .unknownError "Missing 'id' parameter") ∧
    ErrorStatus.unknownError ≠ ErrorStatus.invalidArgument :=
  ⟨rfl, by decide⟩

/-- C3 (amended): for each decoder and each of its required fields
(including fields checked after earlier required fields, and the cookie
fields nested under the `cookie` key), a JSON object missing that field is
rejected with an error whose message names the field; the kind is
`InvalidArgument` for every such field except two: the switch-to-frame
decoder reports a missing `id` as `UnknownError`, and the add-cookie decoder
reports a missing top-level `cookie` object as `UnableToSetCookie` (with the
field name capitalized in the message). -/
theorem missing_required_field_errors (fields : List (String × Json)) :
    (List.lookup "url" fields = none →
       GetParameters.from_json (Json.obj fields)
         = .error (WebDriverError.new .invalidArgument "Missing 'url' parameter") ∧
       mentions "Missing 'url' parameter" "url" = true) ∧
    (List.lookup "handle" fields = none →
       SwitchToWindowParameters.from_json (Json.obj fields)
         = .error (WebDriverError.new .invalidArgument "Missing 'handle' parameter") ∧
       mentions "Missing 'handle' parameter" "handle" = true) ∧
    (List.lookup "using" fields = none →
       LocatorParameters.from_json (Json.obj fields)
         = .error (WebDriverError.new .invalidArgument "Missing 'using' parameter") ∧
       mentions "Missing 'using' parameter" "using" = true) ∧
    (List.lookup "text" fields = none →
       SendKeysParameters.from_json (Json.obj fields)
         = .error (WebDriverError.new .invalidArgument "Missing 'text' parameter") ∧
       mentions "Missing 'text' parameter" "text" = true) ∧
    (List.lookup "args" fields = none →
       JavascriptCommandParameters.from_json (Json.obj fields)
         = .error (WebDriverError.new .invalidArgument "Missing args parameter") ∧
       mentions "Missing args parameter" "args" = true) ∧
    (List.lookup "name" fields = none →
       GetNamedCookieParameters.from_json (Json.obj fields)
         = .error (WebDriverError.new .invalidArgument "Missing 'name' parameter") ∧
       mentions "Missing 'name' parameter" "name" = true) ∧
    (List.lookup "actions" fields = none →
       ActionsParameters.from_json (Json.obj fields)
         = .error (WebDriverError.new .invalidArgument "No actions parameter found") ∧
       mentions "No actions parameter found" "actions" = true) ∧
    (List.lookup "id" fields = none →
       SwitchToFrameParameters.from_json (Json.obj fields)
         = .error (WebDriverError.new .unknownError "Missing 'id' parameter") ∧
       mentions "Missing 'id' parameter" "id" = true) ∧
    (List.lookup "cookie" fields = none →
       AddCookieParameters.from_json (Json.obj fields)
         = .error (WebDriverError.new .unableToSetCookie
             "Cookie parameter not found or not an object") ∧
       mentionsInsensitive "Cookie parameter not found or not an object" "cookie"
         = true) ∧
    (∀ u strat, List.lookup "using" fields = some u →
       LocatorStrategy.from_json u = .ok strat →
       List.lookup "value" fields = none →
       LocatorParameters.from_json (Json.obj fields)
         = .error (WebDriverError.new .invalidArgument "Missing 'value' parameter") ∧
       mentions "Missing 'value' parameter" "value" = true) ∧
    (∀ args, List.lookup "args" fields = some (Json.arr args) →
       List.lookup "script" fields = none →
       JavascriptCommandParameters.from_json (Json.obj fields)
         = .error (WebDriverError.new .invalidArgument "Missing script parameter") ∧
       mentions "Missing script parameter" "script" = true) ∧
    (∀ cdata, List.lookup "cookie" fields = some (Json.obj cdata) →
       List.lookup "name" cdata = none →
       AddCookieParameters.from_json (Json.obj fields)
         = .error (WebDriverError.new .invalidArgument "Missing 'name' parameter") ∧
       mentions "Missing 'name' parameter" "name" = true) ∧
    (∀ cdata nm, List.lookup "cookie" fields = some (Json.obj cdata) →
       List.lookup "name" cdata = some (Json.str nm) →
       List.lookup "value" cdata = none →
       AddCookieParameters.from_json (Json.obj fields)
         = .error (WebDriverError.new .invalidArgument "Missing 'value' parameter") ∧
       mentions "Missing 'value' parameter" "value" = true) := by
  refine ⟨?_, ?_, ?_, ?_, ?_, ?_, ?_, ?_, ?_, ?_, ?_, ?_, ?_⟩
  · intro h
    exact ⟨by simp [GetParameters.from_json, Json.asObject, tryOpt, h,
      Bind.bind, Except.bind], rfl⟩
  · intro h
    exact ⟨by simp [SwitchToWindowParameters.from_json, Json.asObject, tryOpt, h,
      Bind.bind, Except.bind], rfl⟩
  · intro h
    exact ⟨by simp [LocatorParameters.from_json, Json.asObject, tryOpt, h,
      Bind.bind, Except.bind], rfl⟩
  · intro h
    exact ⟨by simp [SendKeysParameters.from_json, Json.asObject, tryOpt, h,
      Bind.bind, Except.bind], rfl⟩
  · intro h
    exact ⟨by simp [JavascriptCommandParameters.from_json, Json.asObject, tryOpt, h,
      Bind.bind, Except.bind], rfl⟩
  · intro h
    exact ⟨by simp [GetNamedCookieParameters.from_json, Json.asObject, tryOpt, h,
      Bind.bind, Except.bind], rfl⟩
  · intro h
    exact ⟨by simp [ActionsParameters.from_json, Json.asObject, Json.get, tryOpt, h,
      Bind.bind, Except.bind], rfl⟩
  · intro h
    exact ⟨by simp [SwitchToFrameParameters.from_json, Json.asObject, tryOpt, h,
      Bind.bind, Except.bind], rfl⟩
  · intro h
    exact ⟨by simp [AddCookieParameters.from_json, Json.isObject, Json.get,
      Json.asObject, tryOpt, h, Bind.bind, Except.bind, Option.bind], rfl⟩
  · intro u strat hu hstrat hv
    exact ⟨by simp [LocatorParameters.from_json, Json.asObject, tryOpt, hu, hstrat,
      hv, Bind.bind, Except.bind], rfl⟩
  · intro args hargs hscript
    exact ⟨by simp [JavascriptCommandParameters.from_json, Json.asObject, tryOpt,
      hargs, hscript, Json.asArray, Bind.bind, Except.bind], rfl⟩
  · intro cdata hc hn
    exact ⟨by simp [AddCookieParameters.from_json, Json.isObject, Json.get,
      Json.asObject, tryOpt, hc, hn, Bind.bind, Except.bind, Option.bind], rfl⟩
  · intro cdata nm hc hname hv
    exact ⟨by simp [AddCookieParameters.from_json, Json.isObject, Json.get,
      Json.asObject, tryOpt, hc, hname, hv, Json.asStr, Bind.bind, Except.bind,
      Option.bind], rfl⟩

/-- C3 (witness): the missing-field errors at concrete objects, including the
later-checked and nested cookie fields. -/
theorem missing_required_field_errors_witness :
    (List.lookup "url" ([] : List (String × Json)) = none) ∧
    (GetParameters.from_json (Json.obj [])
       = .error (WebDriverError.new .invalidArgument "Missing 'url' parameter")) ∧
    (AddCookieParameters.from_json (Json.obj [])
       = .error (WebDriverError.new .unableToSetCookie
           "Cookie parameter not found or not an object")) ∧
    (LocatorStrategy.from_json (Json.str "xpath") = .ok LocatorStrategy.XPath) ∧
    (LocatorParameters.from_json (Json.obj [("using", Json.str "xpath")])
       = .error (WebDriverError.new .invalidArgument "Missing 'value' parameter")) ∧
    (JavascriptCommandParameters.from_json (Json.obj [("args", Json.arr [])])
       = .error (WebDriverError.new .invalidArgument "Missing script parameter")) ∧
    (AddCookieParameters.from_json (Json.obj [("cookie", Json.obj [])])
       = .error (WebDriverError.new .invalidArgument "Missing 'name' parameter")) ∧
    (AddCookieParameters.from_json
        (Json.obj [("cookie", Json.obj [("name", Json.str "n")])])
       = .error (WebDriverError.new .invalidArgument "Missing 'value' parameter")) :=
  ⟨rfl,
   ((missing_required_field_errors []).1 rfl).1,
   (((missing_required_field_errors []).2.2.2.2.2.2.2.2.1) rfl).1,
   rfl,
   (((missing_required_field_errors [("using", Json.str "xpath")]).2.2.2.2.2.2.2.2.2.1)
      (Json.str "xpath") LocatorStrategy.XPath rfl rfl rfl).1,
   (((missing_required_field_errors [("args", Json.arr [])]).2.2.2.2.2.2.2.2.2.2.1)
      [] rfl rfl).1,
   (((missing_required_field_errors
        [("cookie", Json.obj [])]).2.2.2.2.2.2.2.2.2.2.2.1) [] rfl rfl).1,
   (((missing_required_field_errors
        [("cookie", Json.obj [("name", Json.str "n")])]).2.2.2.2.2.2.2.2.2.2.2.2)
      [("name", Json.str "n")] "n" rfl rfl rfl).1⟩

/-- C4 (code bug): decoding `{"x":0,"y":1,"width":2,"height":3}` yields all
four fields present, and an entirely absent field decodes to `None`, but a
JSON `null` field value is rejected with `InvalidArgument` — contradicting
the repository's own `test_window_rect_nullable`, which expects `null` to
decode to `None`. -/
theorem windowRect_null_rejected :
    WindowRectParameters.from_json (Json.obj
        [("x", Json.num 0), ("y", Json.num 1),
         ("width", Json.num 2), ("height", Json.num 3)])
      = .ok ⟨some 0, some 1, some 2, some 3⟩ ∧
    WindowRectParameters.from_json (Json.obj [("x", Json.num 0), ("width", Json.num 2)])
      = .ok ⟨some 0, none, some 2, none⟩ ∧
    WindowRectParameters.from_json (Json.obj
        [("x", Json.num 0), ("y", Json.null),
         ("width", Json.num 2), ("height", Json.num 3)])
      = .error (WebDriverError.new .invalidArgument "'y' is not an integer") :=
  ⟨rfl, rfl, rfl⟩

/-- C5: a numeric frame target decodes to the short window-index variant
exactly on `0..=65535`; any integral number outside that range (negative or
greater than 65535) is rejected with kind `NoSuchFrame` (message "frame id
out of range"), not `InvalidArgument`. -/
theorem frameId_numeric_range (n : Int) :
    ((0 ≤ n ∧ n ≤ 65535) →
       FrameId.from_json (Json.num n) = .ok (FrameId.short n.toNat)) ∧
    (¬(0 ≤ n ∧ n ≤ 65535) →
       FrameId.from_json (Json.num n)
         = .error (WebDriverError.new .noSuchFrame "frame id out of range")) := by
  have hu : (65535 : Int) ≤ (u64Max : Int) := by norm_num [u64Max]
  constructor
  · rintro ⟨h0, h1⟩
    have hA : Json.asU64 (Json.num n) = some n.toNat := by
      show (if 0 ≤ n ∧ n ≤ (u64Max : Int) then some n.toNat else none) = some n.toNat
      rw [if_pos ⟨h0, by omega⟩]
    have hlt : ¬ 65535 < n.toNat := by omega
    simp [FrameId.from_json, tryOpt, hA, hlt, Bind.bind, Except.bind]
  · intro h
    by_cases h0 : 0 ≤ n
    · have h1 : 65535 < n := by omega
      by_cases h2 : n ≤ (u64Max : Int)
      · have hA : Json.asU64 (Json.num n) = some n.toNat := by
          show (if 0 ≤ n ∧ n ≤ (u64Max : Int) then some n.toNat else none)
            = some n.toNat
          rw [if_pos ⟨h0, h2⟩]
        have hlt : 65535 < n.toNat := by omega
        simp [FrameId.from_json, tryOpt, hA, hlt, Bind.bind, Except.bind]
      · have hA : Json.asU64 (Json.num n) = none := by
          show (if 0 ≤ n ∧ n ≤ (u64Max : Int) then some n.toNat else none) = none
          rw [if_neg (fun hc => h2 hc.2)]
        simp [FrameId.from_json, tryOpt, hA, Bind.bind, Except.bind]
    · have hA : Json.asU64 (Json.num n) = none := by
        show (if 0 ≤ n ∧ n ≤ (u64Max : Int) then some n.toNat else none) = none
        rw [if_neg (fun hc => h0 hc.1)]
      simp [FrameId.from_json, tryOpt, hA, Bind.bind, Except.bind]

/-- C5 (witness): 70000 is out of range and fails `NoSuchFrame`; 5 is in
range and decodes to the short variant. -/
theorem frameId_numeric_range_witness :
    ¬((0 : Int) ≤ 70000 ∧ (70000 : Int) ≤ 65535) ∧
    FrameId.from_json (Json.num 70000)
      = .error (WebDriverError.new .noSuchFrame "frame id out of range") ∧
    ((0 : Int) ≤ 5 ∧ (5 : Int) ≤ 65535) ∧
    FrameId.from_json (Json.num 5) = .ok (FrameId.short ((5 : Int)).toNat) :=
  ⟨by decide, (frameId_numeric_range 70000).2 (by decide), by decide,
    (frameId_numeric_range 5).1 (by decide)⟩

/-- C6 (counterexample): the frame-target encoder serializes an element
reference as the bare id string, not as a single-key object carrying
`ELEMENT_KEY`. -/
theorem frameId_element_encoding_not_object :
    FrameId.toValue (FrameId.element ⟨"abc"⟩) = Json.str "abc" ∧
    Json.get (FrameId.toValue (FrameId.element ⟨"abc"⟩)) ELEMENT_KEY = none ∧
    (FrameId.toValue (FrameId.element ⟨"abc"⟩)).isObject = false :=
  ⟨rfl, rfl, rfl⟩

/-- C6 (amended): the element-reference encoder and the pointer-origin
encoder emit the single-key object keyed by the byte-exact protocol constant
`ELEMENT_KEY`, and decoding recognizes an element reference exactly by the
presence of that key; the frame-target encoder, however, deviates and emits
the bare id string. -/
theorem element_reference_wire_key :
    (∀ e : WebElement, e.toValue = Json.obj [(ELEMENT_KEY, Json.str e.id)]) ∧
    (∀ fields, List.lookup ELEMENT_KEY fields = none →
       WebElement.from_json (Json.obj fields)
         = .error (WebDriverError.new .invalidArgument
             "Could not find webelement key")) ∧
    (∀ fields s, List.lookup ELEMENT_KEY fields = some (Json.str s) →
       WebElement.from_json (Json.obj fields) = .ok ⟨s⟩) ∧
    (∀ e : WebElement,
       PointerOrigin.toValue (PointerOrigin.element e)
         = Json.obj [(ELEMENT_KEY, Json.str e.id)]) ∧
    (∀ e : WebElement, FrameId.toValue (FrameId.element e) = Json.str e.id) := by
  refine ⟨fun e => rfl, ?_, ?_, fun e => rfl, fun e => rfl⟩
  · intro fields h
    simp [WebElement.from_json, Json.asObject, tryOpt, h, Bind.bind, Except.bind]
  · intro fields v h
    simp [WebElement.from_json, Json.asObject, tryOpt, h, Json.asStr,
      Bind.bind, Except.bind, Pure.pure, Except.pure]

/-- C6 (witness): decoding recognizes the key on a concrete object, and its
absence is rejected. -/
theorem element_reference_wire_key_witness :
    List.lookup ELEMENT_KEY ([] : List (String × Json)) = none ∧
    WebElement.from_json (Json.obj [])
      = .error (WebDriverError.new .invalidArgument
          "Could not find webelement key") ∧
    List.lookup ELEMENT_KEY [(ELEMENT_KEY, Json.str "xyz")]
      = some (Json.str "xyz") ∧
    WebElement.from_json (Json.obj [(ELEMENT_KEY, Json.str "xyz")]) = .ok ⟨"xyz"⟩ :=
  ⟨rfl, (element_reference_wire_key.2.1 [] rfl), by simp [List.lookup],
    (element_reference_wire_key.2.2.1 [(ELEMENT_KEY, Json.str "xyz")] "xyz"
      (by simp [List.lookup]))⟩

/-- C7: decoding a keyDown or keyUp action requires `value` to be a string of
exactly one character — the empty string and a multi-character string fail
`InvalidArgument` with distinct messages ("empty string" vs "multiple
characters"), and a one-character string succeeds with that character. -/
theorem key_action_value_validation :
    KeyDownAction.from_json (Json.obj [("type", Json.str "keyDown"), ("value", Json.str "")])
      = .error (WebDriverError.new .invalidArgument
          "Parameter 'value' was an empty string") ∧
    KeyDownAction.from_json (Json.obj [("type", Json.str "keyDown"), ("value", Json.str "ab")])
      = .error (WebDriverError.new .invalidArgument
          "Parameter 'value' contained multiple characters") ∧
    KeyUpAction.from_json (Json.obj [("type", Json.str "keyUp"), ("value", Json.str "")])
      = .error (WebDriverError.new .invalidArgument
          "Parameter 'value' was an empty string") ∧
    KeyUpAction.from_json (Json.obj [("type", Json.str "keyUp"), ("value", Json.str "ab")])
      = .error (WebDriverError.new .invalidArgument
          "Parameter 'value' contained multiple characters") ∧
    "Parameter 'value' was an empty string"
      ≠ "Parameter 'value' contained multiple characters" ∧
    (∀ c : Char, KeyDownAction.from_json
        (Json.obj [("type", Json.str "keyDown"), ("value", Json.str (String.singleton c))])
      = .ok ⟨c⟩) ∧
    (∀ c : Char, KeyUpAction.from_json
        (Json.obj [("type", Json.str "keyUp"), ("value", Json.str (String.singleton c))])
      = .ok ⟨c⟩) ∧
    (∀ s : String, 2 ≤ s.length → KeyDownAction.from_json
        (Json.obj [("type", Json.str "keyDown"), ("value", Json.str s)])
      = .error (WebDriverError.new .invalidArgument
          "Parameter 'value' contained multiple characters")) ∧
    (∀ s : String, 2 ≤ s.length → KeyUpAction.from_json
        (Json.obj [("type", Json.str "keyUp"), ("value", Json.str s)])
      = .error (WebDriverError.new .invalidArgument
          "Parameter 'value' contained multiple characters")) :=
  ⟨rfl, rfl, rfl, rfl, by decide, fun c => rfl, fun c => rfl,
   fun s h => by
     simp [KeyDownAction.from_json, Json.get, List.lookup, tryOpt, Json.asStr,
       validate_key_value_multi s h, Bind.bind, Except.bind],
   fun s h => by
     simp [KeyUpAction.from_json, Json.get, List.lookup, tryOpt, Json.asStr,
       validate_key_value_multi s h, Bind.bind, Except.bind]⟩

/-- C7 (witness): the multi-character rejection at a concrete three-character
string. -/
theorem key_action_value_validation_witness :
    2 ≤ ("abc" : String).length ∧
    KeyDownAction.from_json
        (Json.obj [("type", Json.str "keyDown"), ("value", Json.str "abc")])
      = .error (WebDriverError.new .invalidArgument
          "Parameter 'value' contained multiple characters") ∧
    KeyUpAction.from_json
        (Json.obj [("type", Json.str "keyUp"), ("value", Json.str "abc")])
      = .error (WebDriverError.new .invalidArgument
          "Parameter 'value' contained multiple characters") :=
  ⟨by decide,
   key_action_value_validation.2.2.2.2.2.2.2.1 "abc" (by decide),
   key_action_value_validation.2.2.2.2.2.2.2.2 "abc" (by decide)⟩

/-- C8: per-item membership check — a `none`-sequence item decoder accepts
only `pause`; a `key`-sequence item decoder accepts only `pause`, `keyDown`,
`keyUp`; a `pointer`-sequence item decoder accepts only `pause`,
`pointerUp`, `pointerDown`, `pointerMove`, `pointerCancel`; any item type
outside the respective set fails `InvalidArgument`, and `pause` (with a valid
duration) is accepted uniformly by all three. -/
theorem action_item_type_dispatch (fields : List (String × Json)) (t : String)
    (ht : List.lookup "type" fields = some (Json.str t)) :
    (t ≠ "pause" →
       NullActionItem.from_json (Json.obj fields)
         = .error (WebDriverError.new .invalidArgument "Invalid type attribute")) ∧
    (t ∉ (["pause", "keyDown", "keyUp"] : List String) →
       KeyActionItem.from_json (Json.obj fields)
         = .error (WebDriverError.new .invalidArgument
             "Invalid type attribute value for key action")) ∧
    (t ∉ (["pause", "pointerUp", "pointerDown", "pointerMove", "pointerCancel"] :
        List String) →
       PointerActionItem.from_json (Json.obj fields)
         = .error (WebDriverError.new .invalidArgument
             "Missing or invalid type argument for pointer action")) ∧
    (t = "pause" → ∀ d : Nat, d ≤ u64Max →
       List.lookup "duration" fields = some (Json.num d) →
       NullActionItem.from_json (Json.obj fields)
           = .ok (NullActionItem.general (GeneralAction.pause ⟨d⟩)) ∧
       KeyActionItem.from_json (Json.obj fields)
           = .ok (KeyActionItem.general (GeneralAction.pause ⟨d⟩)) ∧
       PointerActionItem.from_json (Json.obj fields)
           = .ok (PointerActionItem.general (GeneralAction.pause ⟨d⟩))) := by
  refine ⟨?_, ?_, ?_, ?_⟩
  · intro hne
    simp only [NullActionItem.from_json, Json.asObject, tryOpt, ht, Json.asStr,
      Bind.bind, Except.bind]
  · intro hne
    simp only [List.mem_cons, List.mem_singleton, not_or] at hne
    obtain ⟨hp, hkd, hku⟩ := hne
    have hKA : KeyAction.from_json (Json.obj fields)
        = .error (WebDriverError.new .invalidArgument
            "Invalid type attribute value for key action") := by
      simp only [KeyAction.from_json, Json.get, ht, Option.bind, Json.asStr]
      split
      · simp_all
      · simp_all
      · rfl
    simp only [KeyActionItem.from_json, Json.asObject, tryOpt, ht, Json.asStr,
      Bind.bind, Except.bind, hKA]
  · intro hne
    simp only [List.mem_cons, List.mem_singleton, not_or] at hne
    obtain ⟨hp, hu, hd, hm, hc⟩ := hne
    have hPA : PointerAction.from_json (Json.obj fields)
        = .error (WebDriverError.new .invalidArgument
            "Missing or invalid type argument for pointer action") := by
      simp only [PointerAction.from_json, Json.get, ht, Option.bind, Json.asStr]
      split
      · simp_all
      · simp_all
      · simp_all
      · simp_all
      · rfl
    simp only [PointerActionItem.from_json, Json.asObject, tryOpt, ht, Json.asStr,
      Bind.bind, Except.bind, hPA]
  · rintro rfl d hd hdur
    have hA := asU64_natCast d hd
    refine ⟨?_, ?_, ?_⟩
    · simp [NullActionItem.from_json, Json.asObject, tryOpt, ht, Json.asStr,
        GeneralAction.from_json, Json.get, hdur, PauseAction.from_json, hA,
        Bind.bind, Except.bind, Pure.pure, Except.pure]
    · simp [KeyActionItem.from_json, Json.asObject, tryOpt, ht, Json.asStr,
        GeneralAction.from_json, Json.get, hdur, PauseAction.from_json, hA,
        Bind.bind, Except.bind, Pure.pure, Except.pure]
    · simp [PointerActionItem.from_json, Json.asObject, tryOpt, ht, Json.asStr,
        GeneralAction.from_json, Json.get, hdur, PauseAction.from_json, hA,
        Bind.bind, Except.bind, Pure.pure, Except.pure]

/-- C8 (witness): a `keyDown` item is rejected by the `none`-sequence item
decoder, an unknown item type is rejected everywhere, and a concrete pause is
accepted by all three item decoders. -/
theorem action_item_type_dispatch_witness :
    List.lookup "type" [("type", Json.str "keyDown")] = some (Json.str "keyDown") ∧
    NullActionItem.from_json (Json.obj [("type", Json.str "keyDown")])
      = .error (WebDriverError.new .invalidArgument "Invalid type attribute") ∧
    KeyActionItem.from_json (Json.obj [("type", Json.str "bogus")])
      = .error (WebDriverError.new .invalidArgument
          "Invalid type attribute value for key action") ∧
    PointerActionItem.from_json (Json.obj [("type", Json.str "bogus")])
      = .error (WebDriverError.new .invalidArgument
          "Missing or invalid type argument for pointer action") ∧
    KeyActionItem.from_json
        (Json.obj [("type", Json.str "pause"), ("duration", Json.num 7)])
      = .ok (KeyActionItem.general (GeneralAction.pause ⟨7⟩)) :=
  ⟨by simp [List.lookup],
   (action_item_type_dispatch [("type", Json.str "keyDown")] "keyDown"
      (by simp [List.lookup])).1 (by decide),
   (action_item_type_dispatch [("type", Json.str "bogus")] "bogus"
      (by simp [List.lookup])).2.1 (by decide),
   (action_item_type_dispatch [("type", Json.str "bogus")] "bogus"
      (by simp [List.lookup])).2.2.1 (by decide),
   ((action_item_type_dispatch
      [("type", Json.str "pause"), ("duration", Json.num 7)] "pause"
      (by simp [List.lookup])).2.2.2 rfl 7 (by norm_num [u64Max])
      (by simp [List.lookup])).2.1⟩

/-- C9: with `body_required = false` the body is never parsed (the result is
the same for every parser and body text); with `body_required = true` a parsed
non-object top level fails `InvalidArgument`, a parsed object is accepted,
and a syntax error fails `InvalidArgument` with the line/column diagnostic
carried in the separate stack string, distinct from the primary message. -/
theorem decode_body_policy (parse : String → ParseResult) (body : String) :
    decode_body parse body false = .ok Json.null ∧
    (∀ fields, parse body = .ok (Json.obj fields) →
       decode_body parse body true = .ok (Json.obj fields)) ∧
    (∀ v, parse body = .ok v → v.isObject = false →
       decode_body parse body true
         = .error (WebDriverError.new .invalidArgument
             "Body was not a JSON Object")) ∧
    (∀ line col, parse body = .parseFailure line col →
       decode_body parse body true
         = .error (WebDriverError.newWithStack .invalidArgument
             ("Failed to decode request as JSON: " ++ body)
             ("Syntax error at :" ++ toString line ++ ":" ++ toString col))) := by
  refine ⟨rfl, ?_, ?_, ?_⟩
  · intro fields hp
    simp [decode_body, hp]
  · intro v hp hobj
    cases v <;> simp_all [decode_body, Json.isObject]
  · intro line col hp
    simp [decode_body, hp]

/-- C9 (witness): the policy at concrete parsers and bodies. -/
theorem decode_body_policy_witness :
    decode_body (fun _ => ParseResult.parseFailure 1 5) "bad" false = .ok Json.null ∧
    ((fun _ => ParseResult.ok (Json.obj [("a", Json.num 1)])) "x"
       = ParseResult.ok (Json.obj [("a", Json.num 1)])) ∧
    decode_body (fun _ => ParseResult.ok (Json.obj [("a", Json.num 1)])) "x" true
      = .ok (Json.obj [("a", Json.num 1)]) ∧
    ((fun _ => ParseResult.ok (Json.num 3)) "3" = ParseResult.ok (Json.num 3)) ∧
    (Json.num 3).isObject = false ∧
    decode_body (fun _ => ParseResult.ok (Json.num 3)) "3" true
      = .error (WebDriverError.new .invalidArgument "Body was not a JSON Object") ∧
    decode_body (fun _ => ParseResult.parseFailure 1 5) "bad" true
      = .error (WebDriverError.newWithStack .invalidArgument
          ("Failed to decode request as JSON: " ++ "bad")
          ("Syntax error at :" ++ toString 1 ++ ":" ++ toString 5)) :=
  ⟨(decode_body_policy (fun _ => ParseResult.parseFailure 1 5) "bad").1,
   rfl,
   (decode_body_policy (fun _ => ParseResult.ok (Json.obj [("a", Json.num 1)])) "x").2.1
     [("a", Json.num 1)] rfl,
   rfl, rfl,
   (decode_body_policy (fun _ => ParseResult.ok (Json.num 3)) "3").2.2.1
     (Json.num 3) rfl rfl,
   (decode_body_policy (fun _ => ParseResult.parseFailure 1 5) "bad").2.2.2 1 5 rfl⟩

/-- C10: add-cookie parameters never round-trip — the encoder emits the
cookie fields at the top level without a `cookie` wrapper, while the decoder
demands them nested under a `cookie` key, so decoding the encoding of any
`AddCookieParameters` value fails with `UnableToSetCookie`. -/
theorem addCookie_decode_encode_fails (p : AddCookieParameters) :
    AddCookieParameters.from_json p.toValue
      = .error (WebDriverError.new .unableToSetCookie
          "Cookie parameter not found or not an object") := by
  simp [AddCookieParameters.from_json, AddCookieParameters.toValue, Json.isObject,
    Json.get, List.lookup, tryOpt, Json.asObject, Bind.bind, Except.bind]

end WebdriverRust
